import Mathlib

/-!
Verification of the interaction-flow state machine of the announce-message
Discord bot (src/bot.py) against its natural-language specification.

The embedding models the bot's per-invocation flow state (the channel-select
view, the title/body modal, the role-select view, and the data the code hangs
on the shared interaction namespace) as an explicit state record, and each
asynchronous callback of the source as one step of a transition function.
External collaborator behaviour (the Discord gateway) enters only as event
data: whether the selected channel resolves to a text channel, and whether
delivery succeeds, is denied, or fails otherwise.
-/

namespace FortyBot

/-- A guild role as seen by the bot: its snowflake id and display name. -/
structure Role where
  id : Nat
  name : String
deriving DecidableEq, Repr

/-- A guild text channel: id, name, and whether the bot may send to it
(the result of channel.permissions_for(guild.me).send_messages). -/
structure Channel where
  id : Nat
  name : String
  canSend : Bool
deriving DecidableEq, Repr

/-- A guild context: its text channels and roles. -/
structure Guild where
  channels : List Channel
  roles : List Role
deriving DecidableEq, Repr

/-- One option of a discord.ui.Select: display label and string value. -/
structure SelectOption where
  label : String
  value : String
deriving DecidableEq, Repr

/-- Channel options of ChannelSelectView.__init__ (bot.py lines 123-128):
one option per text channel labelled "#name" and valued str(id), with a
"no_channels" sentinel entry when the list is empty. -/
def channelOptions (textChannels : List Channel) : List SelectOption :=
  let opts := textChannels.map (fun ch => ⟨"#" ++ ch.name, toString ch.id⟩)
  if opts.isEmpty then [⟨"No text channels found", "no_channels"⟩] else opts

/-- Role options of RoleSelectView.__init__ (bot.py lines 44-49): one option
per guild role whose name is not "@everyone", labelled by the role name and
valued str(id); a single "no_roles" informational entry when none remain. -/
def roleOptions (guildRoles : List Role) : List SelectOption :=
  if ((guildRoles.filter (fun r => r.name ≠ "@everyone")).map
      (fun r => (⟨r.name, toString r.id⟩ : SelectOption))).isEmpty
  then [⟨"No roles available", "no_roles"⟩]
  else (guildRoles.filter (fun r => r.name ≠ "@everyone")).map
      (fun r => ⟨r.name, toString r.id⟩)

/-- The max_values argument of the role select (bot.py line 55): the number
of options when real roles are listed, 1 when only the sentinel entry is. -/
def roleMaxValues (guildRoles : List Role) : Nat :=
  if ((roleOptions guildRoles).headD ⟨"", ""⟩).value ≠ "no_roles"
  then (roleOptions guildRoles).length
  else 1

/-- Timeout of ChannelSelectView (bot.py line 119: timeout=180 seconds). -/
def channelSelectViewTimeout : Option Nat := some 180

/-- Timeout of RoleSelectView (bot.py line 38: timeout=180 seconds). -/
def roleSelectViewTimeout : Option Nat := some 180

/-- Timeout of MessageModal (bot.py line 21): the class passes no timeout,
and the discord.py Modal default is None, i.e. no idle bound at all. -/
def messageModalTimeout : Option Nat := none

/-- One role mention token, f"<@&\x7brole.id\x7d>" (bot.py line 104). -/
def mentionToken (id : Nat) : String := "<@&" ++ toString id ++ ">"

/-- Python str.join with a single space, " ".join(...) (bot.py line 104). -/
def joinSpace : List String → String
  | [] => ""
  | [x] => x
  | x :: y :: xs => x ++ " " ++ joinSpace (y :: xs)

/-- role_mentions_str (bot.py lines 102-104): empty unless roles were
passed, else the space-joined mention tokens. -/
def roleMentionsStr (roles : List Nat) : String :=
  if roles.isEmpty then "" else joinSpace (roles.map mentionToken)

/-- The content argument of channel.send (bot.py line 107):
role_mentions_str if role_mentions_str else None. -/
def messageContent (roles : List Nat) : Option String :=
  if roleMentionsStr roles = "" then none else some (roleMentionsStr roles)

end FortyBot

section NatReprInjective

/-- Specification of decimal rendering: most-significant digit first,
rendering 0 as "0". Used to characterise Nat.toDigits from core. -/
def decChars (n : Nat) : List Char :=
  if _h : n < 10 then [Nat.digitChar n]
  else decChars (n / 10) ++ [Nat.digitChar (n % 10)]
termination_by n
decreasing_by exact Nat.div_lt_self (by omega) (by omega)

theorem decChars_lt (n : Nat) (h : n < 10) : decChars n = [Nat.digitChar n] := by
  rw [decChars]; simp [h]

theorem decChars_ge (n : Nat) (h : ¬ n < 10) :
    decChars n = decChars (n / 10) ++ [Nat.digitChar (n % 10)] := by
  rw [decChars]; simp [h]

/-- Nat.toDigitsCore with sufficient fuel computes decChars. -/
theorem toDigitsCore_eq_decChars : ∀ (fuel n : Nat) (ds : List Char),
    n < fuel → Nat.toDigitsCore 10 fuel n ds = decChars n ++ ds := by
  intro fuel
  induction fuel with
  | zero => intro n ds h; omega
  | succ f ih =>
    intro n ds h
    unfold Nat.toDigitsCore
    by_cases h10 : n < 10
    · have : n / 10 = 0 := Nat.div_eq_of_lt h10
      simp only [this, if_pos rfl, decChars_lt n h10]
      have : n % 10 = n := Nat.mod_eq_of_lt h10
      rw [this]; rfl
    · have hne : n / 10 ≠ 0 := by
        intro hz
        have : n < 10 := by
          have := Nat.div_eq_zero_iff (show 0 < 10 by omega) |>.mp hz
          omega
        omega
      simp only [if_neg hne]
      have hlt : n / 10 < f := by
        have h1 : n / 10 < n := Nat.div_lt_self (by omega) (by omega)
        omega
      rw [ih (n / 10) (Nat.digitChar (n % 10) :: ds) hlt,
          decChars_ge n h10, List.append_assoc]
      rfl

theorem toDigits_eq_decChars (n : Nat) : Nat.toDigits 10 n = decChars n := by
  have := toDigitsCore_eq_decChars (n + 1) n [] (Nat.lt_succ_self n)
  simpa [Nat.toDigits] using this

/-- Value of a most-significant-first decimal digit list. -/
def valChars (l : List Char) : Nat :=
  l.foldl (fun a c => a * 10 + (c.toNat - 48)) 0

theorem digitChar_toNat (n : Nat) (h : n < 10) :
    (Nat.digitChar n).toNat - 48 = n := by
  interval_cases n <;> decide

theorem valChars_decChars (n : Nat) : valChars (decChars n) = n := by
  induction n using Nat.strong_induction_on with
  | _ n ih =>
    by_cases h : n < 10
    · simp [decChars_lt n h, valChars, digitChar_toNat n h]
    · rw [decChars_ge n h]
      have hdiv : n / 10 < n := Nat.div_lt_self (by omega) (by omega)
      have hv := ih (n / 10) hdiv
      simp only [valChars, List.foldl_append, List.foldl_cons, List.foldl_nil] at *
      rw [hv, digitChar_toNat (n % 10) (Nat.mod_lt n (by omega))]
      omega

theorem decChars_injective : Function.Injective decChars := by
  intro m n h
  have := congrArg valChars h
  rwa [valChars_decChars, valChars_decChars] at this

theorem natRepr_injective : Function.Injective Nat.repr := by
  intro m n h
  apply decChars_injective
  have hm : (Nat.repr m).data = decChars m := by
    simp [Nat.repr, toDigits_eq_decChars, List.asString]
  have hn : (Nat.repr n).data = decChars n := by
    simp [Nat.repr, toDigits_eq_decChars, List.asString]
  rw [← hm, ← hn, h]

theorem natToString_injective : Function.Injective (toString : Nat → String) :=
  natRepr_injective

end NatReprInjective

namespace FortyBot

/-- State of a live RoleSelectView (bot.py lines 36-69): whether stop() has
run, the selected_roles list (role ids), and the selected_channel_id the view
was constructed with. -/
structure RoleViewSt where
  stopped : Bool
  selectedRoles : List Nat
  channelId : Nat
deriving DecidableEq, Repr

/-- A message delivered by channel.send (bot.py line 107): destination
channel, optional content (the mention string or None), and the embed. -/
structure SentMsg where
  channelId : Nat
  content : Option String
  embedTitle : String
  embedBody : String
deriving DecidableEq, Repr

/-- The whole per-invocation flow state: the candidate channel list and guild
roles captured at creation, the interaction-namespace attributes the code
threads across callbacks (selected_channel_id, msg_title, body), the
channel-select view's stopped flag, whether the modal is open awaiting
submission, the role view once created, the delivered message if any, and a
count of channel.send attempts. -/
structure FlowSt where
  textChannels : List Channel
  guildRoles : List Role
  nsChannelId : Option Nat
  nsTitle : Option String
  nsBody : Option String
  chStopped : Bool
  modalOpen : Bool
  roleView : Option RoleViewSt
  sent : Option SentMsg
  sendAttempts : Nat
deriving DecidableEq, Repr

/-- Outcome of one channel.send attempt, as decided by the gateway: success,
discord.Forbidden, or any other exception (bot.py lines 106-112). -/
inductive DeliverySim
  | success
  | forbidden
  | otherError (e : String)
deriving DecidableEq, Repr

/-- One inbound event of a flow. Callback events carry the data the
corresponding handler receives; send/skip presses also carry the gateway
facts the handler observes (whether client.get_channel resolves to a text
channel, and the delivery outcome). The two timeout events model expiry of
the 180-second view timeouts. -/
inductive Event
  | channelSelect (v : Option Nat)
  | modalSubmit (title body : String)
  | roleSelect (noRolesToken : Bool) (ids : List Nat)
  | sendPress (resolved : Bool) (d : DeliverySim)
  | skipPress (resolved : Bool) (d : DeliverySim)
  | chTimeout
  | rvTimeout
deriving DecidableEq, Repr

/-- The ephemeral response (or absence of one) a step produces. stale marks
an event dispatched to a stopped or nonexistent component, which discord.py
ignores without running any handler; formRejected marks a modal submission
the platform refuses because a required field is empty. -/
inductive Resp
  | stale
  | formRejected
  | noChannelsMsg
  | modalShown
  | rolesInfo (roles : List Nat)
  | rolePromptShown (options : List SelectOption)
  | sentConfirm (channelId : Nat)
  | channelNotFound
  | permissionDenied
  | deliveryError (e : String)
  | noResp
deriving DecidableEq, Repr

/-- Both TextInput fields of MessageModal are required=True (bot.py lines
22-23), so the platform only delivers on_submit when both values are
non-empty; no trimming is involved. -/
def formDelivers (title body : String) : Bool :=
  title ≠ "" && body ≠ ""

/-- send_message_action (bot.py lines 89-114): reads title/body from the
namespace, resolves the channel; on failure reports and returns early
without stopping the view. Otherwise attempts channel.send once and stops
the view whatever the outcome. -/
def sendMessageAction (s : FlowSt) (rv : RoleViewSt) (roles : List Nat)
    (resolved : Bool) (d : DeliverySim) : FlowSt × Resp :=
  if resolved = false then (s, .channelNotFound)
  else
    let msg : SentMsg :=
      { channelId := rv.channelId
        content := messageContent roles
        embedTitle := s.nsTitle.getD ""
        embedBody := s.nsBody.getD "" }
    match d with
    | .success =>
        ({ s with roleView := some { rv with stopped := true },
                  sent := some msg,
                  sendAttempts := s.sendAttempts + 1 }, .sentConfirm rv.channelId)
    | .forbidden =>
        ({ s with roleView := some { rv with stopped := true },
                  sendAttempts := s.sendAttempts + 1 }, .permissionDenied)
    | .otherError e =>
        ({ s with roleView := some { rv with stopped := true },
                  sendAttempts := s.sendAttempts + 1 }, .deliveryError e)

/-- One step of the flow: dispatches an event exactly as discord.py and the
handlers in bot.py do. Events for a stopped or never-created component are
ignored (stale). channel_select_callback (lines 139-166) sets the namespace
channel id and opens the modal, or stops on the sentinel; after modal
submission (on_submit, lines 25-33, then the resumed select callback) the
role view is created and the channel view stopped; role_select_callback
(lines 72-79) records the selection; the send and skip buttons (lines 82-86)
run send_message_action with the recorded or the empty selection. -/
def step (s : FlowSt) (e : Event) : FlowSt × Resp :=
  match e with
  | .channelSelect v =>
      if s.chStopped then (s, .stale)
      else
        match v with
        | none => ({ s with chStopped := true }, .noChannelsMsg)
        | some c => ({ s with nsChannelId := some c, modalOpen := true }, .modalShown)
  | .modalSubmit t b =>
      if s.modalOpen = false then (s, .stale)
      else if formDelivers t b = false then (s, .formRejected)
      else
        ({ s with nsTitle := some t, nsBody := some b, modalOpen := false,
                  chStopped := true,
                  roleView := some { stopped := false, selectedRoles := [],
                                     channelId := s.nsChannelId.getD 0 } },
         .rolePromptShown (roleOptions s.guildRoles))
  | .roleSelect noTok ids =>
      match s.roleView with
      | none => (s, .stale)
      | some rv =>
          if rv.stopped then (s, .stale)
          else if noTok then
            ({ s with roleView := some { rv with selectedRoles := [] } }, .rolesInfo [])
          else
            ({ s with roleView := some { rv with selectedRoles := ids } }, .rolesInfo ids)
  | .sendPress resolved d =>
      match s.roleView with
      | none => (s, .stale)
      | some rv =>
          if rv.stopped then (s, .stale)
          else sendMessageAction s rv rv.selectedRoles resolved d
  | .skipPress resolved d =>
      match s.roleView with
      | none => (s, .stale)
      | some rv =>
          if rv.stopped then (s, .stale)
          else sendMessageAction s rv [] resolved d
  | .chTimeout =>
      if s.chStopped then (s, .noResp) else ({ s with chStopped := true }, .noResp)
  | .rvTimeout =>
      match s.roleView with
      | none => (s, .noResp)
      | some rv =>
          if rv.stopped then (s, .noResp)
          else ({ s with roleView := some { rv with stopped := true } }, .noResp)

/-- The flow state created by send_message_command on success (bot.py lines
180-184): fresh namespace, live channel-select view. -/
def initFlow (g : Guild) (textChannels : List Channel) : FlowSt :=
  { textChannels := textChannels
    guildRoles := g.roles
    nsChannelId := none
    nsTitle := none
    nsBody := none
    chStopped := false
    modalOpen := false
    roleView := none
    sent := none
    sendAttempts := 0 }

/-- Result of the sendmessage command entry point. -/
inductive StartResult
  | notInGuild
  | noEligibleChannels
  | started (s : FlowSt) (options : List SelectOption)
deriving DecidableEq, Repr

/-- send_message_command (bot.py lines 169-184): guild guard, filter of text
channels by send permission, empty-check, then flow creation and the channel
prompt. -/
def sendMessageCommand (guild : Option Guild) : StartResult :=
  match guild with
  | none => .notInGuild
  | some g =>
      let textChannels := g.channels.filter (fun ch => ch.canSend)
      if textChannels.isEmpty then .noEligibleChannels
      else .started (initFlow g textChannels) (channelOptions textChannels)

/-- The spec's stage enumeration. -/
inductive Stage
  | AwaitingChannel
  | AwaitingForm
  | AwaitingRoles
  | Completed
  | Aborted
deriving DecidableEq, Repr

/-- The stage a concrete flow state occupies, read off the live components:
a delivered message means Completed; a live role view means AwaitingRoles, a
stopped one (without delivery) Aborted; otherwise an open modal means
AwaitingForm, a live channel view AwaitingChannel, a stopped one Aborted. -/
def stage (s : FlowSt) : Stage :=
  if s.sent.isSome then .Completed
  else
    match s.roleView with
    | some rv => if rv.stopped then .Aborted else .AwaitingRoles
    | none =>
        if s.modalOpen then .AwaitingForm
        else if s.chStopped then .Aborted
        else .AwaitingChannel

/-- The stage a callback event addresses (the step its UI component belongs
to); none for the timeout events, which are not callbacks. -/
def targetStage : Event → Option Stage
  | .channelSelect _ => some .AwaitingChannel
  | .modalSubmit _ _ => some .AwaitingForm
  | .roleSelect _ _ => some .AwaitingRoles
  | .sendPress _ _ => some .AwaitingRoles
  | .skipPress _ _ => some .AwaitingRoles
  | .chTimeout => none
  | .rvTimeout => none

/-- Whether an event is a user-step callback rather than a timeout. -/
def isCallback : Event → Bool
  | .chTimeout => false
  | .rvTimeout => false
  | _ => true

/-- Structural invariant of reachable flow states: once the role view
exists the channel view is stopped and the modal closed, and a delivered
message implies a stopped role view. -/
def invB (s : FlowSt) : Bool :=
  (s.roleView.isNone || (s.chStopped && !s.modalOpen))
  && (s.sent.isNone || s.roleView.any (fun rv => rv.stopped))

def Inv (s : FlowSt) : Prop := invB s = true

theorem inv_init (g : Guild) (tcs : List Channel) : Inv (initFlow g tcs) := rfl

theorem inv_sendMessageAction (s : FlowSt) (rv : RoleViewSt) (roles : List Nat)
    (resolved : Bool) (d : DeliverySim)
    (h : Inv s) (hrv : s.roleView = some rv) :
    Inv (sendMessageAction s rv roles resolved d).1 := by
  unfold Inv invB at *
  rw [hrv] at h
  unfold sendMessageAction
  cases resolved <;> cases d <;> simp_all

theorem inv_step (s : FlowSt) (e : Event) (h : Inv s) : Inv (step s e).1 := by
  obtain ⟨tc, gr, nsc, nst, nsb, chS, mo, orv, osent, sa⟩ := s
  cases e with
  | channelSelect v =>
      unfold Inv invB at *
      cases chS
      · rcases orv with _ | rv
        · rcases v with _ | c <;> rcases osent with _ | m <;> simp_all [step]
        · simp_all [step]
      · rcases v with _ | c <;> simp_all [step]
  | modalSubmit t b =>
      unfold Inv invB at *
      cases mo
      · simp_all [step]
      · rcases orv with _ | rv
        · by_cases hf : formDelivers t b
          · rcases osent with _ | m <;> simp_all [step]
          · simp_all [step]
        · simp_all [step]
  | roleSelect noTok ids =>
      unfold Inv invB at *
      rcases orv with _ | ⟨st, sel, cid⟩
      · simp_all [step]
      · cases st <;> cases noTok <;> rcases osent with _ | m <;> simp_all [step]
  | sendPress resolved d =>
      rcases orv with _ | rv
      · simpa [step] using h
      · rcases hst : rv.stopped
        · simpa [step, hst] using
            inv_sendMessageAction _ rv rv.selectedRoles resolved d h rfl
        · simpa [step, hst] using h
  | skipPress resolved d =>
      rcases orv with _ | rv
      · simpa [step] using h
      · rcases hst : rv.stopped
        · simpa [step, hst] using
            inv_sendMessageAction _ rv [] resolved d h rfl
        · simpa [step, hst] using h
  | chTimeout =>
      unfold Inv invB at *
      cases chS
      · rcases orv with _ | rv
        · rcases osent with _ | m <;> simp_all [step]
        · simp_all [step]
      · simp_all [step]
  | rvTimeout =>
      unfold Inv invB at *
      rcases orv with _ | ⟨st, sel, cid⟩
      · simp_all [step]
      · cases st <;> rcases osent with _ | m <;> simp_all [step]

theorem toString_nat_data (n : Nat) : (toString n : String).data = decChars n := by
  show (Nat.repr n).data = decChars n
  simp [Nat.repr, toDigits_eq_decChars, List.asString]

theorem mentionToken_injective : Function.Injective mentionToken := by
  intro m n h
  apply natToString_injective
  apply String.ext
  have hd := congrArg String.data h
  simp only [mentionToken, String.data_append] at hd
  simpa [List.append_cancel_right_eq] using hd

theorem mentionToken_ne_empty (id : Nat) : mentionToken id ≠ "" := by
  intro h
  have hd := congrArg String.data h
  simp [mentionToken, String.data_append] at hd

theorem joinSpace_ne_empty (x : String) (xs : List String) (hx : x ≠ "") :
    joinSpace (x :: xs) ≠ "" := by
  cases xs with
  | nil => simpa [joinSpace] using hx
  | cons y ys =>
      intro h
      have hd := congrArg String.data h
      simp [joinSpace, String.data_append] at hd

theorem roleMentionsStr_nil : roleMentionsStr [] = "" := rfl

theorem roleMentionsStr_ne_empty (roles : List Nat) (h : roles ≠ []) :
    roleMentionsStr roles ≠ "" := by
  cases roles with
  | nil => exact absurd rfl h
  | cons r rs =>
      unfold roleMentionsStr
      simp only [List.isEmpty_cons, List.map_cons]
      exact joinSpace_ne_empty _ _ (mentionToken_ne_empty r)

theorem messageContent_nil : messageContent [] = none := rfl

theorem messageContent_cons (roles : List Nat) (h : roles ≠ []) :
    messageContent roles = some (joinSpace (roles.map mentionToken)) := by
  unfold messageContent
  rw [if_neg (roleMentionsStr_ne_empty roles h)]
  unfold roleMentionsStr
  rw [if_neg (by simpa using h)]

/-- In any state satisfying the invariant whose stage is terminal, every
component of the flow is stopped, so discord.py dispatches no handler: each
callback is a stale no-op that leaves the state untouched. -/
theorem stale_of_terminal (s : FlowSt) (e : Event) (hInv : Inv s)
    (hTerm : stage s = Stage.Completed ∨ stage s = Stage.Aborted)
    (hCb : isCallback e = true) :
    step s e = (s, Resp.stale) := by
  obtain ⟨tc, gr, nsc, nst, nsb, chS, mo, orv, osent, sa⟩ := s
  unfold Inv invB at hInv
  unfold stage at hTerm
  rcases orv with _ | ⟨st, sel, cid⟩ <;> rcases osent with _ | m <;>
    cases chS <;> cases mo <;> (try cases st) <;>
    cases e <;> simp_all [step, isCallback]

/-- The transitions the spec's state machine allows in one step: staying
put, advancing to the immediate next stage of the chain
AwaitingChannel, AwaitingForm, AwaitingRoles, Completed, or aborting early
from a non-terminal stage; the two terminal stages are absorbing. -/
def stepOkB : Stage → Stage → Bool
  | .AwaitingChannel, .AwaitingChannel => true
  | .AwaitingChannel, .AwaitingForm => true
  | .AwaitingChannel, .Aborted => true
  | .AwaitingForm, .AwaitingForm => true
  | .AwaitingForm, .AwaitingRoles => true
  | .AwaitingForm, .Aborted => true
  | .AwaitingRoles, .AwaitingRoles => true
  | .AwaitingRoles, .Completed => true
  | .AwaitingRoles, .Aborted => true
  | .Completed, .Completed => true
  | .Aborted, .Aborted => true
  | _, _ => false

/-- Position of a stage along the forward chain; both terminal stages sit at
the end. -/
def stageIdx : Stage → Nat
  | .AwaitingChannel => 0
  | .AwaitingForm => 1
  | .AwaitingRoles => 2
  | .Completed => 3
  | .Aborted => 3

/-- Folding a whole event sequence through the flow. -/
def run (s : FlowSt) (es : List Event) : FlowSt :=
  es.foldl (fun s e => (step s e).1) s

theorem stepOkB_le (a b : Stage) (h : stepOkB a b = true) :
    stageIdx a ≤ stageIdx b := by
  cases a <;> cases b <;> simp_all [stepOkB, stageIdx]

theorem stepOkB_completed (b : Stage) (h : stepOkB Stage.Completed b = true) :
    b = Stage.Completed := by
  cases b <;> simp_all [stepOkB]

theorem stepOkB_aborted (b : Stage) (h : stepOkB Stage.Aborted b = true) :
    b = Stage.Aborted := by
  cases b <;> simp_all [stepOkB]

theorem stage_step_ok (s : FlowSt) (e : Event) (hInv : Inv s) :
    stepOkB (stage s) (stage (step s e).1) = true := by
  obtain ⟨tc, gr, nsc, nst, nsb, chS, mo, orv, osent, sa⟩ := s
  unfold Inv invB at hInv
  cases e with
  | channelSelect v =>
      rcases orv with _ | ⟨st, sel, cid⟩ <;> rcases osent with _ | m <;>
        cases chS <;> cases mo <;> (try cases st) <;> rcases v with _ | c <;>
        simp_all [step, stage, stepOkB]
  | modalSubmit t b =>
      by_cases hf : formDelivers t b <;>
        rcases orv with _ | ⟨st, sel, cid⟩ <;> rcases osent with _ | m <;>
        cases chS <;> cases mo <;> (try cases st) <;>
        simp_all [step, stage, stepOkB]
  | roleSelect noTok ids =>
      rcases orv with _ | ⟨st, sel, cid⟩ <;> rcases osent with _ | m <;>
        cases chS <;> cases mo <;> (try cases st) <;> cases noTok <;>
        simp_all [step, stage, stepOkB]
  | sendPress resolved d =>
      rcases orv with _ | ⟨st, sel, cid⟩ <;> rcases osent with _ | m <;>
        cases chS <;> cases mo <;> (try cases st) <;>
        cases resolved <;> (try cases d) <;>
        simp_all [step, stage, stepOkB, sendMessageAction]
  | skipPress resolved d =>
      rcases orv with _ | ⟨st, sel, cid⟩ <;> rcases osent with _ | m <;>
        cases chS <;> cases mo <;> (try cases st) <;>
        cases resolved <;> (try cases d) <;>
        simp_all [step, stage, stepOkB, sendMessageAction]
  | chTimeout =>
      rcases orv with _ | ⟨st, sel, cid⟩ <;> rcases osent with _ | m <;>
        cases chS <;> cases mo <;> (try cases st) <;>
        simp_all [step, stage, stepOkB]
  | rvTimeout =>
      rcases orv with _ | ⟨st, sel, cid⟩ <;> rcases osent with _ | m <;>
        cases chS <;> cases mo <;> (try cases st) <;>
        simp_all [step, stage, stepOkB]

theorem inv_run (s : FlowSt) (es : List Event) (hInv : Inv s) :
    Inv (run s es) := by
  induction es generalizing s with
  | nil => exact hInv
  | cons e es ih => exact ih _ (inv_step s e hInv)

theorem run_stage_le (s : FlowSt) (es : List Event) (hInv : Inv s) :
    stageIdx (stage s) ≤ stageIdx (stage (run s es)) := by
  induction es generalizing s with
  | nil => exact Nat.le_refl _
  | cons e es ih =>
      have h1 := stepOkB_le _ _ (stage_step_ok s e hInv)
      have h2 := ih _ (inv_step s e hInv)
      exact Nat.le_trans h1 h2

theorem run_completed_fixed (s : FlowSt) (es : List Event) (hInv : Inv s)
    (h : stage s = Stage.Completed) : stage (run s es) = Stage.Completed := by
  induction es generalizing s with
  | nil => exact h
  | cons e es ih =>
      have h1 := stage_step_ok s e hInv
      rw [h] at h1
      exact ih _ (inv_step s e hInv) (stepOkB_completed _ h1)

theorem run_aborted_fixed (s : FlowSt) (es : List Event) (hInv : Inv s)
    (h : stage s = Stage.Aborted) : stage (run s es) = Stage.Aborted := by
  induction es generalizing s with
  | nil => exact h
  | cons e es ih =>
      have h1 := stage_step_ok s e hInv
      rw [h] at h1
      exact ih _ (inv_step s e hInv) (stepOkB_aborted _ h1)

/-- C1 (amended): the flow is single-shot in the sense that once its stage
has reached Completed or Aborted, every component is stopped, so any
subsequent step callback (channel selection, form submission, role
selection, send, or skip) is dispatched as a stale no-op and never mutates
the flow state. The claim's stronger clause — that a callback targeting any
stage other than the flow's current one always yields StaleInteraction and
never mutates state — is false on the code, since the channel-select view
stays live while the form is open (see the counterexample). -/
theorem c1_terminal_callbacks_stale (s : FlowSt) (e : Event) (hInv : Inv s)
    (hTerm : stage s = Stage.Completed ∨ stage s = Stage.Aborted)
    (hCb : isCallback e = true) :
    step s e = (s, Resp.stale) :=
  stale_of_terminal s e hInv hTerm hCb

/-- Witness for C1 at a concrete aborted flow: a late send press is a stale
no-op. -/
theorem c1_terminal_callbacks_stale_witness :
    step (⟨[], [], none, none, none, true, false, none, none, 0⟩ : FlowSt)
        (Event.sendPress true DeliverySim.success) =
      ((⟨[], [], none, none, none, true, false, none, none, 0⟩ : FlowSt), Resp.stale) :=
  c1_terminal_callbacks_stale _ _ rfl (Or.inr (by decide)) (by decide)

/-- A concrete reachable flow state sitting at AwaitingForm: the single
eligible channel was selected, which opened the modal; note the channel
view is not yet stopped (bot.py stops it only at line 166, after the modal
completes). -/
def c1CexSt : FlowSt :=
  run (initFlow ⟨[⟨5, "general", true⟩], [⟨9, "mods"⟩]⟩ [⟨5, "general", true⟩])
    [Event.channelSelect (some 5)]

/-- C1 counterexample: at the reachable AwaitingForm state above, a second
channel-selection callback — which targets AwaitingChannel, not the current
stage — is not treated as stale: the handler runs, mutates the selected
channel id in the namespace, and opens a fresh modal. -/
theorem c1_counterexample :
    stage c1CexSt = Stage.AwaitingForm ∧
    targetStage (Event.channelSelect (some 6)) ≠ some Stage.AwaitingForm ∧
    (step c1CexSt (Event.channelSelect (some 6))).2 ≠ Resp.stale ∧
    c1CexSt.nsChannelId = some 5 ∧
    (step c1CexSt (Event.channelSelect (some 6))).1.nsChannelId = some 6 := by
  decide

/-- C2: the stage moves only forward along the chain AwaitingChannel →
AwaitingForm → AwaitingRoles → (Completed or Aborted). Every single step
either keeps the stage, advances it to the immediate next stage of the
chain, or aborts from a non-terminal stage (the early termination the spec
grants to timeouts); no step moves backward or skips ahead to Completed.
Consequently the stage index is monotone over every event sequence and both
terminal stages are absorbing. -/
theorem c2_stage_forward (s : FlowSt) (es : List Event) (e : Event)
    (hInv : Inv s) :
    stepOkB (stage s) (stage (step s e).1) = true ∧
    stageIdx (stage s) ≤ stageIdx (stage (run s es)) ∧
    (stage s = Stage.Completed → stage (run s es) = Stage.Completed) ∧
    (stage s = Stage.Aborted → stage (run s es) = Stage.Aborted) :=
  ⟨stage_step_ok s e hInv, run_stage_le s es hInv,
   run_completed_fixed s es hInv, run_aborted_fixed s es hInv⟩

/-- Witness for C2 on a concrete run: starting the flow and selecting the
eligible channel is a legal forward step from AwaitingChannel to
AwaitingForm. -/
theorem c2_stage_forward_witness :
    stepOkB Stage.AwaitingChannel Stage.AwaitingForm = true :=
  (c2_stage_forward
      (initFlow ⟨[⟨5, "general", true⟩], [⟨9, "mods"⟩]⟩ [⟨5, "general", true⟩])
      [] (Event.channelSelect (some 5)) rfl).1

/-- C3: finalizing a flow at AwaitingRoles (a send press whose delivery
succeeds) records a message whose content carries no mention prefix when
the selected role set is empty, and otherwise is exactly the space-joined
list of mention tokens, one token per selected role, pairwise distinct
whenever the selected role ids are distinct (as ids of distinct guild roles
are). -/
theorem c3_finalize_mentions (s : FlowSt) (rv : RoleViewSt)
    (hrv : s.roleView = some rv) (hlive : rv.stopped = false)
    (hnd : rv.selectedRoles.Nodup) :
    ∃ m : SentMsg,
      (step s (Event.sendPress true DeliverySim.success)).1.sent = some m ∧
      m.channelId = rv.channelId ∧
      (rv.selectedRoles = [] → m.content = none) ∧
      (rv.selectedRoles ≠ [] →
        m.content = some (joinSpace (rv.selectedRoles.map mentionToken)) ∧
        (rv.selectedRoles.map mentionToken).length = rv.selectedRoles.length ∧
        (rv.selectedRoles.map mentionToken).Nodup) := by
  have hstep : (step s (Event.sendPress true DeliverySim.success)).1.sent =
      some { channelId := rv.channelId
             content := messageContent rv.selectedRoles
             embedTitle := s.nsTitle.getD ""
             embedBody := s.nsBody.getD "" } := by
    simp [step, hrv, hlive, sendMessageAction]
  refine ⟨_, hstep, rfl, ?_, ?_⟩
  · intro h; rw [h]; exact messageContent_nil
  · intro h
    refine ⟨messageContent_cons _ h, List.length_map _ _, ?_⟩
    exact hnd.map mentionToken_injective

/-- Witness for C3: a concrete flow at AwaitingRoles with roles 9 and 12
selected; finalize renders the two distinct mention tokens, and with no
roles selected it renders no content. -/
theorem c3_finalize_mentions_witness :
    ∃ m : SentMsg,
      (step (⟨[], [], some 5, some "t", some "b", true, false,
          some ⟨false, [9, 12], 5⟩, none, 0⟩ : FlowSt)
        (Event.sendPress true DeliverySim.success)).1.sent = some m ∧
      m.channelId = 5 ∧
      ([9, 12] = ([] : List Nat) → m.content = none) ∧
      (([9, 12] : List Nat) ≠ [] →
        m.content = some (joinSpace ([9, 12].map mentionToken)) ∧
        (([9, 12] : List Nat).map mentionToken).length = ([9, 12] : List Nat).length ∧
        (([9, 12] : List Nat).map mentionToken).Nodup) :=
  c3_finalize_mentions _ ⟨false, [9, 12], 5⟩ rfl rfl (by decide)

/-- C4: the sendmessage command fails with the not-in-guild report outside a
guild; inside one it filters the guild's text channels by the bot's send
permission, fails with the no-eligible-channels report when the filter is
empty (constructing no flow state), and otherwise creates a flow whose
stage is AwaitingChannel and renders a channel prompt with one option per
eligible channel, labelled by the channel's name and keyed by its id. -/
theorem c4_start (guild : Option Guild) :
    (guild = none → sendMessageCommand guild = StartResult.notInGuild) ∧
    (∀ g : Guild, guild = some g →
      (g.channels.filter (fun ch => ch.canSend) = [] →
          sendMessageCommand guild = StartResult.noEligibleChannels) ∧
      (g.channels.filter (fun ch => ch.canSend) ≠ [] →
          sendMessageCommand guild =
            StartResult.started (initFlow g (g.channels.filter (fun ch => ch.canSend)))
              ((g.channels.filter (fun ch => ch.canSend)).map
                (fun ch => ⟨"#" ++ ch.name, toString ch.id⟩)) ∧
          stage (initFlow g (g.channels.filter (fun ch => ch.canSend))) =
            Stage.AwaitingChannel)) := by
  constructor
  · rintro rfl; rfl
  · rintro g rfl
    constructor
    · intro h
      simp [sendMessageCommand, h]
    · intro h
      refine ⟨?_, rfl⟩
      rcases hl : g.channels.filter (fun ch => ch.canSend) with _ | ⟨c, cs⟩
      · exact absurd hl h
      · simp [sendMessageCommand, hl, channelOptions]

/-- Witness for C4 in a concrete guild with one sendable and one
non-sendable channel: the flow starts at AwaitingChannel listing exactly
the sendable channel. -/
theorem c4_start_witness :
    sendMessageCommand (some ⟨[⟨5, "general", true⟩, ⟨7, "mod-log", false⟩], [⟨9, "mods"⟩]⟩) =
      StartResult.started
        (initFlow ⟨[⟨5, "general", true⟩, ⟨7, "mod-log", false⟩], [⟨9, "mods"⟩]⟩
          [⟨5, "general", true⟩])
        [⟨"#general", "5"⟩] ∧
    stage (initFlow ⟨[⟨5, "general", true⟩, ⟨7, "mod-log", false⟩], [⟨9, "mods"⟩]⟩
      [⟨5, "general", true⟩]) = Stage.AwaitingChannel := by
  have h := ((c4_start
      (some ⟨[⟨5, "general", true⟩, ⟨7, "mod-log", false⟩], [⟨9, "mods"⟩]⟩)).2
      ⟨[⟨5, "general", true⟩, ⟨7, "mod-log", false⟩], [⟨9, "mods"⟩]⟩ rfl).2 (by decide)
  exact h

/-- C5 (amended): the two modal fields are required, so a submission with a
zero-length title or body is refused by the form surface itself and the
flow stays at AwaitingForm; but no whitespace trimming happens anywhere:
every submission the platform delivers — including fields that are blank
after trimming — is stored verbatim by on_submit and advances the flow to
AwaitingRoles. The code has no ValidationError path of its own. -/
theorem c5_form_validation (s : FlowSt) (t b : String)
    (hInv : Inv s) (hmo : s.modalOpen = true) :
    stage s = Stage.AwaitingForm ∧
    ((t = "" ∨ b = "") → step s (Event.modalSubmit t b) = (s, Resp.formRejected)) ∧
    (t ≠ "" → b ≠ "" →
      (step s (Event.modalSubmit t b)).1.nsTitle = some t ∧
      (step s (Event.modalSubmit t b)).1.nsBody = some b ∧
      stage (step s (Event.modalSubmit t b)).1 = Stage.AwaitingRoles) := by
  obtain ⟨tc, gr, nsc, nst, nsb, chS, mo, orv, osent, sa⟩ := s
  unfold Inv invB at hInv
  simp only at hmo
  subst hmo
  rcases orv with _ | rv
  · rcases osent with _ | m
    · refine ⟨rfl, ?_, ?_⟩
      · intro hemp
        rcases hemp with h | h <;> subst h <;> simp [step, formDelivers]
      · intro ht hb
        simp [step, formDelivers, ht, hb, stage]
    · simp at hInv
  · simp at hInv

/-- Witness for C5: in a concrete flow awaiting the form, the empty title
is refused with the stage unchanged, and the non-empty submission is stored
and advances the stage. -/
theorem c5_form_validation_witness :
    stage (⟨[], [], some 5, none, none, false, true, none, none, 0⟩ : FlowSt) =
      Stage.AwaitingForm ∧
    (("" : String) = "" ∨ ("x" : String) = "" →
      step (⟨[], [], some 5, none, none, false, true, none, none, 0⟩ : FlowSt)
          (Event.modalSubmit "" "x") =
        ((⟨[], [], some 5, none, none, false, true, none, none, 0⟩ : FlowSt),
          Resp.formRejected)) ∧
    (("" : String) ≠ "" → ("x" : String) ≠ "" →
      (step (⟨[], [], some 5, none, none, false, true, none, none, 0⟩ : FlowSt)
          (Event.modalSubmit "" "x")).1.nsTitle = some "" ∧
      (step (⟨[], [], some 5, none, none, false, true, none, none, 0⟩ : FlowSt)
          (Event.modalSubmit "" "x")).1.nsBody = some "x" ∧
      stage (step (⟨[], [], some 5, none, none, false, true, none, none, 0⟩ : FlowSt)
          (Event.modalSubmit "" "x")).1 = Stage.AwaitingRoles) :=
  c5_form_validation _ "" "x" rfl rfl

/-- A concrete flow state awaiting the form, used only to refute the
trim-validation clause of the original claim. -/
def c5CexSt : FlowSt := ⟨[], [], some 5, none, none, false, true, none, none, 0⟩

/-- C5 counterexample: a submission whose title is a single space — a
non-empty string consisting only of whitespace, hence empty after trimming
— is not rejected: no ValidationError exists, the untrimmed title is
stored, and the stage advances to AwaitingRoles instead of remaining
AwaitingForm as the claim demands. -/
theorem c5_counterexample :
    (" " : String) ≠ "" ∧
    (" " : String).data.all (fun c => c.isWhitespace) = true ∧
    stage c5CexSt = Stage.AwaitingForm ∧
    stage (step c5CexSt (Event.modalSubmit " " "body")).1 = Stage.AwaitingRoles ∧
    (step c5CexSt (Event.modalSubmit " " "body")).1.nsTitle = some " " := by
  decide

/-- C6 (amended): only the channel-select and role-select views carry a
bounded (180-second) idle window; the form modal is created with the
discord.py Modal default of no timeout at all. A flow idling at
AwaitingForm therefore never times out: no timeout event moves it out of
AwaitingForm, and the code renders no TimedOut notice anywhere. -/
theorem c6_timeouts (s : FlowSt) (hAF : stage s = Stage.AwaitingForm) :
    channelSelectViewTimeout = some 180 ∧
    roleSelectViewTimeout = some 180 ∧
    messageModalTimeout = none ∧
    stage (step s Event.chTimeout).1 = Stage.AwaitingForm ∧
    stage (step s Event.rvTimeout).1 = Stage.AwaitingForm := by
  obtain ⟨tc, gr, nsc, nst, nsb, chS, mo, orv, osent, sa⟩ := s
  refine ⟨rfl, rfl, rfl, ?_, ?_⟩ <;>
    rcases orv with _ | ⟨st, sel, cid⟩ <;> rcases osent with _ | m <;>
    cases chS <;> cases mo <;> (try cases st) <;>
    simp_all [step, stage]

/-- Witness for C6 at a concrete AwaitingForm state. -/
theorem c6_timeouts_witness :
    channelSelectViewTimeout = some 180 ∧
    roleSelectViewTimeout = some 180 ∧
    messageModalTimeout = none ∧
    stage (step (⟨[], [], some 5, none, none, false, true, none, none, 0⟩ : FlowSt)
      Event.chTimeout).1 = Stage.AwaitingForm ∧
    stage (step (⟨[], [], some 5, none, none, false, true, none, none, 0⟩ : FlowSt)
      Event.rvTimeout).1 = Stage.AwaitingForm :=
  c6_timeouts _ rfl

/-- A concrete flow state awaiting the form, used only to refute the
bounded-idle-window claim. -/
def c6CexSt : FlowSt := ⟨[], [], some 7, none, none, false, true, none, none, 0⟩

/-- C6 counterexample: at a concrete AwaitingForm state the modal has no
timeout window (the claim asserts every pending step has a bounded one),
and even the 180-second expiry of the channel view leaves the stage at
AwaitingForm — it never becomes Aborted without a user action. -/
theorem c6_counterexample :
    messageModalTimeout = none ∧
    stage c6CexSt = Stage.AwaitingForm ∧
    stage (step c6CexSt Event.chTimeout).1 = Stage.AwaitingForm ∧
    stage (step c6CexSt Event.chTimeout).1 ≠ Stage.Aborted ∧
    stage (step c6CexSt Event.rvTimeout).1 ≠ Stage.Aborted := by
  decide

/-- C7: when delivery fails with the permission error (discord.Forbidden),
the handler reports the permission-denied message, the role view is
stopped so the flow ends Aborted, nothing was delivered, exactly one send
attempt was consumed, and no retry can ever happen: every subsequent
callback on the aborted flow is a stale no-op. The exception is caught, so
the process survives (the step function is total). -/
theorem c7_forbidden_delivery (s : FlowSt) (rv : RoleViewSt) (hInv : Inv s)
    (hrv : s.roleView = some rv) (hlive : rv.stopped = false) :
    (step s (Event.sendPress true DeliverySim.forbidden)).2 = Resp.permissionDenied ∧
    stage (step s (Event.sendPress true DeliverySim.forbidden)).1 = Stage.Aborted ∧
    (step s (Event.sendPress true DeliverySim.forbidden)).1.sent = none ∧
    (step s (Event.sendPress true DeliverySim.forbidden)).1.sendAttempts =
      s.sendAttempts + 1 ∧
    (∀ e : Event, isCallback e = true →
      step (step s (Event.sendPress true DeliverySim.forbidden)).1 e =
        ((step s (Event.sendPress true DeliverySim.forbidden)).1, Resp.stale)) := by
  have hsent : s.sent = none := by
    unfold Inv invB at hInv
    rw [hrv] at hInv
    cases hs : s.sent <;> simp_all [hlive]
  have hstep : step s (Event.sendPress true DeliverySim.forbidden) =
      ({ s with roleView := some { rv with stopped := true },
                sendAttempts := s.sendAttempts + 1 }, Resp.permissionDenied) := by
    simp [step, hrv, hlive, sendMessageAction]
  have habort : stage (step s (Event.sendPress true DeliverySim.forbidden)).1 =
      Stage.Aborted := by
    rw [hstep]
    simp [stage, hsent]
  refine ⟨by rw [hstep], habort, by rw [hstep]; simpa using hsent,
    by rw [hstep], ?_⟩
  intro e hcb
  exact stale_of_terminal _ e
    (inv_step s (Event.sendPress true DeliverySim.forbidden) hInv)
    (Or.inr habort) hcb

/-- Witness for C7 at a concrete flow awaiting roles: the forbidden
delivery yields the permission report, an aborted stage, no delivery, one
consumed attempt, and stale subsequent callbacks. -/
theorem c7_forbidden_delivery_witness :
    (step (⟨[], [], some 5, some "t", some "b", true, false,
        some ⟨false, [9], 5⟩, none, 0⟩ : FlowSt)
      (Event.sendPress true DeliverySim.forbidden)).2 = Resp.permissionDenied ∧
    stage (step (⟨[], [], some 5, some "t", some "b", true, false,
        some ⟨false, [9], 5⟩, none, 0⟩ : FlowSt)
      (Event.sendPress true DeliverySim.forbidden)).1 = Stage.Aborted ∧
    (step (⟨[], [], some 5, some "t", some "b", true, false,
        some ⟨false, [9], 5⟩, none, 0⟩ : FlowSt)
      (Event.sendPress true DeliverySim.forbidden)).1.sent = none ∧
    (step (⟨[], [], some 5, some "t", some "b", true, false,
        some ⟨false, [9], 5⟩, none, 0⟩ : FlowSt)
      (Event.sendPress true DeliverySim.forbidden)).1.sendAttempts = 0 + 1 ∧
    (∀ e : Event, isCallback e = true →
      step (step (⟨[], [], some 5, some "t", some "b", true, false,
          some ⟨false, [9], 5⟩, none, 0⟩ : FlowSt)
        (Event.sendPress true DeliverySim.forbidden)).1 e =
        ((step (⟨[], [], some 5, some "t", some "b", true, false,
            some ⟨false, [9], 5⟩, none, 0⟩ : FlowSt)
          (Event.sendPress true DeliverySim.forbidden)).1, Resp.stale)) :=
  c7_forbidden_delivery _ ⟨false, [9], 5⟩ rfl rfl rfl

/-- C8: the role prompt lists exactly the guild roles other than the
implicit everyone role (those named "@everyone" are filtered out),
labelled by the role name and keyed by its id; when zero assignable roles
remain, the select is rendered with the single informational "No roles
available" entry — not a selectable role, its value is the sentinel
"no_roles" — constrained to one selection; and picking that entry is
handled, not an error: it resets the chosen roles to none, after which a
send press delivers exactly what a skip press from the same flow state
would (zero roles chosen). -/
theorem c8_role_prompt (roles : List Role) (s : FlowSt) (rv : RoleViewSt)
    (ids : List Nat) (resolved : Bool) (d : DeliverySim)
    (hrv : s.roleView = some rv) (hlive : rv.stopped = false) :
    (roles.filter (fun r => r.name ≠ "@everyone") ≠ [] →
      roleOptions roles = (roles.filter (fun r => r.name ≠ "@everyone")).map
        (fun r => ⟨r.name, toString r.id⟩)) ∧
    (roles.filter (fun r => r.name ≠ "@everyone") = [] →
      roleOptions roles = [⟨"No roles available", "no_roles"⟩] ∧
      roleMaxValues roles = 1) ∧
    (step s (Event.roleSelect true ids)).1.roleView =
      some { rv with selectedRoles := [] } ∧
    (step s (Event.roleSelect true ids)).2 = Resp.rolesInfo [] ∧
    (step (step s (Event.roleSelect true ids)).1 (Event.sendPress resolved d)).2 =
      (step s (Event.skipPress resolved d)).2 ∧
    (step (step s (Event.roleSelect true ids)).1 (Event.sendPress resolved d)).1.sent =
      (step s (Event.skipPress resolved d)).1.sent := by
  refine ⟨?_, ?_, ?_, ?_, ?_, ?_⟩
  · intro h
    rcases hl : roles.filter (fun r => r.name ≠ "@everyone") with _ | ⟨r, rs⟩
    · exact absurd hl h
    · unfold roleOptions
      rw [hl]
      simp
  · intro h
    have hopts : roleOptions roles = [⟨"No roles available", "no_roles"⟩] := by
      unfold roleOptions
      rw [h]
      simp
    refine ⟨hopts, ?_⟩
    unfold roleMaxValues
    rw [hopts]
    simp
  · simp [step, hrv, hlive]
  · simp [step, hrv, hlive]
  · cases resolved <;> cases d <;> simp [step, hrv, hlive, sendMessageAction]
  · cases resolved <;> cases d <;> simp [step, hrv, hlive, sendMessageAction]

/-- Witness for C8 in a guild whose only role is the implicit everyone
role, at a concrete flow awaiting roles. -/
theorem c8_role_prompt_witness :
    (([⟨1, "@everyone"⟩] : List Role).filter (fun r => r.name ≠ "@everyone") ≠ [] →
      roleOptions [⟨1, "@everyone"⟩] =
        (([⟨1, "@everyone"⟩] : List Role).filter (fun r => r.name ≠ "@everyone")).map
          (fun r => ⟨r.name, toString r.id⟩)) ∧
    (([⟨1, "@everyone"⟩] : List Role).filter (fun r => r.name ≠ "@everyone") = [] →
      roleOptions [⟨1, "@everyone"⟩] = [⟨"No roles available", "no_roles"⟩] ∧
      roleMaxValues [⟨1, "@everyone"⟩] = 1) ∧
    (step (⟨[], [⟨1, "@everyone"⟩], some 5, some "t", some "b", true, false,
        some ⟨false, [], 5⟩, none, 0⟩ : FlowSt)
      (Event.roleSelect true [])).1.roleView = some ⟨false, [], 5⟩ ∧
    (step (⟨[], [⟨1, "@everyone"⟩], some 5, some "t", some "b", true, false,
        some ⟨false, [], 5⟩, none, 0⟩ : FlowSt)
      (Event.roleSelect true [])).2 = Resp.rolesInfo [] ∧
    (step (step (⟨[], [⟨1, "@everyone"⟩], some 5, some "t", some "b", true, false,
        some ⟨false, [], 5⟩, none, 0⟩ : FlowSt)
      (Event.roleSelect true [])).1 (Event.sendPress true DeliverySim.success)).2 =
      (step (⟨[], [⟨1, "@everyone"⟩], some 5, some "t", some "b", true, false,
        some ⟨false, [], 5⟩, none, 0⟩ : FlowSt)
        (Event.skipPress true DeliverySim.success)).2 ∧
    (step (step (⟨[], [⟨1, "@everyone"⟩], some 5, some "t", some "b", true, false,
        some ⟨false, [], 5⟩, none, 0⟩ : FlowSt)
      (Event.roleSelect true [])).1 (Event.sendPress true DeliverySim.success)).1.sent =
      (step (⟨[], [⟨1, "@everyone"⟩], some 5, some "t", some "b", true, false,
        some ⟨false, [], 5⟩, none, 0⟩ : FlowSt)
        (Event.skipPress true DeliverySim.success)).1.sent :=
  c8_role_prompt [⟨1, "@everyone"⟩] _ ⟨false, [], 5⟩ [] true DeliverySim.success rfl rfl

/-- C9: the skip trigger finalizes with the empty role set no matter what
roles were previously selected in the dropdown: the delivered message
carries no mention content, the earlier selection is silently discarded,
and the flow completes. -/
theorem c9_skip_discards (s : FlowSt) (rv : RoleViewSt)
    (hrv : s.roleView = some rv) (hlive : rv.stopped = false)
    (_hsel : rv.selectedRoles ≠ []) :
    (step s (Event.skipPress true DeliverySim.success)).2 =
      Resp.sentConfirm rv.channelId ∧
    (∃ m : SentMsg,
      (step s (Event.skipPress true DeliverySim.success)).1.sent = some m ∧
      m.content = none) ∧
    stage (step s (Event.skipPress true DeliverySim.success)).1 =
      Stage.Completed := by
  have hstep : step s (Event.skipPress true DeliverySim.success) =
      ({ s with roleView := some { rv with stopped := true },
                sent := some { channelId := rv.channelId
                               content := messageContent []
                               embedTitle := s.nsTitle.getD ""
                               embedBody := s.nsBody.getD "" },
                sendAttempts := s.sendAttempts + 1 }, Resp.sentConfirm rv.channelId) := by
    simp [step, hrv, hlive, sendMessageAction]
  refine ⟨by rw [hstep], ⟨_, by rw [hstep], messageContent_nil⟩, ?_⟩
  rw [hstep]
  simp [stage]

/-- Witness for C9: a concrete flow with roles 9 and 12 selected; skip
still sends with no mention content and completes the flow. -/
theorem c9_skip_discards_witness :
    (step (⟨[], [], some 5, some "t", some "b", true, false,
        some ⟨false, [9, 12], 5⟩, none, 0⟩ : FlowSt)
      (Event.skipPress true DeliverySim.success)).2 = Resp.sentConfirm 5 ∧
    (∃ m : SentMsg,
      (step (⟨[], [], some 5, some "t", some "b", true, false,
          some ⟨false, [9, 12], 5⟩, none, 0⟩ : FlowSt)
        (Event.skipPress true DeliverySim.success)).1.sent = some m ∧
      m.content = none) ∧
    stage (step (⟨[], [], some 5, some "t", some "b", true, false,
        some ⟨false, [9, 12], 5⟩, none, 0⟩ : FlowSt)
      (Event.skipPress true DeliverySim.success)).1 = Stage.Completed :=
  c9_skip_discards _ ⟨false, [9, 12], 5⟩ rfl rfl (by decide)

/-- C10: when the selected channel cannot be resolved to a text channel at
finalize time, the handler reports the error and returns before the final
stop: the flow state is completely unchanged — still AwaitingRoles, nothing
delivered, the role view still live — so the user can trigger send or skip
again on the same flow, and a later resolved send still completes it. -/
theorem c10_unresolved_channel (s : FlowSt) (rv : RoleViewSt) (hInv : Inv s)
    (hrv : s.roleView = some rv) (hlive : rv.stopped = false)
    (d d' : DeliverySim) :
    step s (Event.sendPress false d) = (s, Resp.channelNotFound) ∧
    step s (Event.skipPress false d') = (s, Resp.channelNotFound) ∧
    stage s = Stage.AwaitingRoles ∧
    (∃ m : SentMsg,
      (step (step s (Event.sendPress false d)).1
        (Event.sendPress true DeliverySim.success)).1.sent = some m) ∧
    stage (step (step s (Event.sendPress false d)).1
      (Event.sendPress true DeliverySim.success)).1 = Stage.Completed := by
  have hsent : s.sent = none := by
    unfold Inv invB at hInv
    rw [hrv] at hInv
    cases hs : s.sent <;> simp_all [hlive]
  have h1 : step s (Event.sendPress false d) = (s, Resp.channelNotFound) := by
    simp [step, hrv, hlive, sendMessageAction]
  refine ⟨h1, by simp [step, hrv, hlive, sendMessageAction], ?_, ?_, ?_⟩
  · simp [stage, hsent, hrv, hlive]
  · rw [h1]
    refine ⟨{ channelId := rv.channelId, content := messageContent rv.selectedRoles,
              embedTitle := s.nsTitle.getD "", embedBody := s.nsBody.getD "" }, ?_⟩
    simp [step, hrv, hlive, sendMessageAction]
  · rw [h1]
    have : (step s (Event.sendPress true DeliverySim.success)).1.sent.isSome = true := by
      simp [step, hrv, hlive, sendMessageAction]
    simp only [stage, this]
    rw [Option.isSome_iff_exists] at this
    obtain ⟨m, hm⟩ := this
    simp [stage, hm]

/-- Witness for C10 at a concrete flow awaiting roles. -/
theorem c10_unresolved_channel_witness :
    step (⟨[], [], some 5, some "t", some "b", true, false,
        some ⟨false, [9], 5⟩, none, 0⟩ : FlowSt)
      (Event.sendPress false DeliverySim.success) =
      ((⟨[], [], some 5, some "t", some "b", true, false,
        some ⟨false, [9], 5⟩, none, 0⟩ : FlowSt), Resp.channelNotFound) ∧
    step (⟨[], [], some 5, some "t", some "b", true, false,
        some ⟨false, [9], 5⟩, none, 0⟩ : FlowSt)
      (Event.skipPress false DeliverySim.success) =
      ((⟨[], [], some 5, some "t", some "b", true, false,
        some ⟨false, [9], 5⟩, none, 0⟩ : FlowSt), Resp.channelNotFound) ∧
    stage (⟨[], [], some 5, some "t", some "b", true, false,
        some ⟨false, [9], 5⟩, none, 0⟩ : FlowSt) = Stage.AwaitingRoles ∧
    (∃ m : SentMsg,
      (step (step (⟨[], [], some 5, some "t", some "b", true, false,
          some ⟨false, [9], 5⟩, none, 0⟩ : FlowSt)
        (Event.sendPress false DeliverySim.success)).1
        (Event.sendPress true DeliverySim.success)).1.sent = some m) ∧
    stage (step (step (⟨[], [], some 5, some "t", some "b", true, false,
        some ⟨false, [9], 5⟩, none, 0⟩ : FlowSt)
      (Event.sendPress false DeliverySim.success)).1
      (Event.sendPress true DeliverySim.success)).1 = Stage.Completed :=
  c10_unresolved_channel
    (⟨[], [], some 5, some "t", some "b", true, false,
      some ⟨false, [9], 5⟩, none, 0⟩ : FlowSt)
    ⟨false, [9], 5⟩ rfl rfl rfl DeliverySim.success DeliverySim.success

end FortyBot
